import Mathlib

/-!
Verification development for the IR protocol transmission engine of the
InfraredRemoteControl firmware (`Snippets/cmt-remote.h`).  The engine's data
model (`IrRemote::Parameters`, the transmission `State` enum, the shared
mutable engine state) and the `send` entry points of the protocol classes are
embedded shallowly as pure Lean functions over an explicit `EngineState`
record.  Machine integers (`uint32_t`) are modelled as `Nat` with explicit
`% 2^32` where overflow can occur.  The interrupt environment is modelled as
an explicit step function threaded through the busy-wait loop.
-/

set_option maxRecDepth 8192

namespace USBDM

/-- Timing/format constants of one IR protocol (`IrRemote::Parameters`).
Durations are in CMT ticks (1 tick = 1 us); `carrier` is in Hz. -/
structure Parameters where
  carrier : Nat
  zeroHigh : Nat
  zeroLow : Nat
  oneHigh : Nat
  oneLow : Nat
  startHigh : Nat
  startLow : Nat
  repeatTime : Nat
  repeatHigh : Nat
  repeatLow : Nat
  packetLength : Nat
  middleStopBit : Nat
  repeats : Nat
  fastRepeats : Bool
  deriving DecidableEq

/-- Transmission state-machine states (`IrRemote::State`). -/
inductive State where
  | s_Initial
  | s_Start
  | s_FirstWord
  | s_MiddleStop
  | s_SecondWord
  | s_Stop
  | s_SpaceTrailer
  | s_MarkTrailer
  | s_Complete
  deriving DecidableEq

/-- Protocol selector (`IrRemote::Protocol`). -/
inductive Protocol where
  | p_LASER
  | p_SONY_TV
  | p_SAMSUNG_TV
  | p_SAMSUNG_DVD
  | p_NEC
  | p_TEAC
  deriving DecidableEq

/-- The engine's process-wide mutable state: the static data members of
`IrRemote` (`parameters`, `state`, `data1`, `data2`, `protocol`, `busyFlag`,
`delayInMilliseconds`) together with the values most recently programmed into
the CMT hardware by `Cmt::configure` (carrier half-period and the armed
mark/space interval). -/
structure EngineState where
  parameters : Parameters
  state : State
  data1 : Nat
  data2 : Nat
  protocol : Protocol
  busyFlag : Bool
  delayInMilliseconds : Nat
  cmtCarrierHalfPeriod : Nat
  cmtMark : Nat
  cmtSpace : Nat
  deriving DecidableEq

/-- `IrRemote::isBusy`: returns the busy flag. -/
def isBusy (s : EngineState) : Bool :=
  s.busyFlag

/-- `IrRemote::start(delay)`: sets the busy flag, programs the CMT carrier
generator for the descriptor's carrier (half period `8 MHz / carrier / 2`
clock cycles), restarts the state machine at `s_Initial`, records the
post-command delay and arms the first hardware interval with
`parameters.startHigh` / `parameters.startLow` via `Cmt::configure`. -/
def start (delay : Nat) (s : EngineState) : EngineState :=
  { s with
    busyFlag := true,
    cmtCarrierHalfPeriod := 8000000 / s.parameters.carrier / 2,
    state := State.s_Initial,
    delayInMilliseconds := delay,
    cmtMark := s.parameters.startHigh,
    cmtSpace := s.parameters.startLow }

/-- `IrRemote::waitUntilComplete`: busy-waits while `isBusy()`.  The loop
body is empty in the source; the busy flag only changes through the
interrupt handlers, modelled here as an explicit environment step function
applied once per loop iteration, with explicit fuel so the function is
total (`none` models a wait that never terminates within `fuel` steps). -/
def waitUntilComplete (step : EngineState → EngineState) : Nat → EngineState → Option EngineState
  | 0, s => if s.busyFlag then none else some s
  | fuel + 1, s => if s.busyFlag then waitUntilComplete step fuel (step s) else some s

namespace IrLaserDVD

/-- `IrLaserDVD::myParameters` (NEC-style pulse-distance, multiples of 564 us). -/
def myParameters : Parameters :=
  { carrier := 38000,
    zeroHigh := 564,
    zeroLow := 564,
    oneHigh := 564,
    oneLow := 3 * 564,
    startHigh := 16 * 564,
    startLow := 8 * 564,
    repeatTime := 108000,
    repeatHigh := 16 * 564,
    repeatLow := 4 * 564,
    packetLength := 32,
    middleStopBit := 0,
    repeats := 3,
    fastRepeats := true }

/-- `IrLaserDVD::send(code, delay, repeats)`. -/
def send (step : EngineState → EngineState) (fuel code delay repeats : Nat)
    (s : EngineState) : Option EngineState :=
  (waitUntilComplete step fuel s).map fun s0 =>
    let s1 : EngineState := { s0 with data1 := code, data2 := 0, protocol := Protocol.p_NEC }
    let s2 : EngineState := { s1 with parameters := myParameters }
    let s3 : EngineState :=
      if repeats ≠ 0 then { s2 with parameters := { s2.parameters with repeats := repeats } } else s2
    start delay s3

end IrLaserDVD

namespace IrTeacPVR

/-- `IrTeacPVR::myParameters` (identical timing to the Laser DVD descriptor). -/
def myParameters : Parameters :=
  { carrier := 38000,
    zeroHigh := 564,
    zeroLow := 564,
    oneHigh := 564,
    oneLow := 3 * 564,
    startHigh := 16 * 564,
    startLow := 8 * 564,
    repeatTime := 108000,
    repeatHigh := 16 * 564,
    repeatLow := 4 * 564,
    packetLength := 32,
    middleStopBit := 0,
    repeats := 3,
    fastRepeats := true }

/-- `IrTeacPVR::send(code, delay, repeats)`. -/
def send (step : EngineState → EngineState) (fuel code delay repeats : Nat)
    (s : EngineState) : Option EngineState :=
  (waitUntilComplete step fuel s).map fun s0 =>
    let s1 : EngineState := { s0 with data1 := code, data2 := 0, protocol := Protocol.p_TEAC }
    let s2 : EngineState := { s1 with parameters := myParameters }
    let s3 : EngineState :=
      if repeats ≠ 0 then { s2 with parameters := { s2.parameters with repeats := repeats } } else s2
    start delay s3

end IrTeacPVR

namespace IrTeacDVD

/-- `IrTeacDVD::myParameters` (identical timing to the Laser DVD descriptor). -/
def myParameters : Parameters :=
  { carrier := 38000,
    zeroHigh := 564,
    zeroLow := 564,
    oneHigh := 564,
    oneLow := 3 * 564,
    startHigh := 16 * 564,
    startLow := 8 * 564,
    repeatTime := 108000,
    repeatHigh := 16 * 564,
    repeatLow := 4 * 564,
    packetLength := 32,
    middleStopBit := 0,
    repeats := 3,
    fastRepeats := true }

/-- `IrTeacDVD::send(code, delay, repeats)`. -/
def send (step : EngineState → EngineState) (fuel code delay repeats : Nat)
    (s : EngineState) : Option EngineState :=
  (waitUntilComplete step fuel s).map fun s0 =>
    let s1 : EngineState := { s0 with data1 := code, data2 := 0, protocol := Protocol.p_TEAC }
    let s2 : EngineState := { s1 with parameters := myParameters }
    let s3 : EngineState :=
      if repeats ≠ 0 then { s2 with parameters := { s2.parameters with repeats := repeats } } else s2
    start delay s3

end IrTeacDVD

namespace IrSamsungDVD

/-- `IrSamsungDVD::myParameters`
(IRP `{38k,500u}<1,-1|1,-3>(9,-9,D:8,S:8,1,-9,E:4,F:8,-68u,~F:8,1,-118)+`). -/
def myParameters : Parameters :=
  { carrier := 38000,
    zeroHigh := 500,
    zeroLow := 500,
    oneHigh := 500,
    oneLow := 3 * 500,
    startHigh := 9 * 500,
    startLow := 9 * 500,
    repeatTime := 120000,
    repeatHigh := 9 * 500,
    repeatLow := 9 * 500,
    packetLength := 16 + 20,
    middleStopBit := 16,
    repeats := 1,
    fastRepeats := false }

/-- `IrSamsungDVD::Device::DVD`. -/
def DVD : Nat := 0x0020

/-- Values of the `IrSamsungDVD::Code` enumeration
(each is `E:4, F:8, ~F:8` packed LSB first: low nibble `E`, then the
function byte `F`, then its complement check byte `~F`). -/
def codes : List Nat :=
  [0xD7287, 0xCC337, 0xDA257, 0xDB247, 0xE6197, 0xFE017, 0xD42B7, 0xEA157,
   0xEE117, 0xDD227, 0xE9167, 0xE11E7, 0xE41B7, 0xE21D7, 0xF40B7, 0xFD027,
   0xFC037, 0xFB047, 0xFA057, 0xF9067, 0xF8077, 0xF7087, 0xF6097, 0xF50A7,
   0xE31C7, 0xFF007, 0xCD327, 0xEB147, 0xDE217, 0xD8277, 0xE8177, 0xED127,
   0xF20D7, 0xE51A7, 0xC6397, 0xEC137, 0xD9267, 0xDF207, 0xC53A7, 0xE7187,
   0xDC237]

/-- `IrSamsungDVD::send(code, delay, device, repeats)`: `data1` receives the
device word, `data2` the command word. -/
def send (step : EngineState → EngineState) (fuel code delay device repeats : Nat)
    (s : EngineState) : Option EngineState :=
  (waitUntilComplete step fuel s).map fun s0 =>
    let s1 : EngineState := { s0 with data1 := device, data2 := code, protocol := Protocol.p_SAMSUNG_DVD }
    let s2 : EngineState := { s1 with parameters := myParameters }
    let s3 : EngineState :=
      if repeats ≠ 0 then { s2 with parameters := { s2.parameters with repeats := repeats } } else s2
    start delay s3

end IrSamsungDVD

/-- `SONY_LENGTH_MASK`: top two bits of a Sony command word hold the length tag. -/
def SONY_LENGTH_MASK : Nat := 0xC0000000

/-- `SONY_LENGTH_12`: tag for 12-bit packets. -/
def SONY_LENGTH_12 : Nat := 0x00000000

/-- `SONY_LENGTH_15`: tag for 15-bit packets. -/
def SONY_LENGTH_15 : Nat := 0x80000000

/-- `SONY_LENGTH_20`: tag for 20-bit packets. -/
def SONY_LENGTH_20 : Nat := 0x40000000

/-- Reduction of a value to `uint32_t` range (wrap-around of C++ unsigned
arithmetic). -/
def uint32 (x : Nat) : Nat := x % 4294967296

/-- `makeSonyCode(length, code, address)`: packs `code | (address << 7)` with
the length tag for 12/15/20-bit packets, and returns `-1U` (`0xFFFFFFFF`)
for any other length.  The arguments are `uint32_t`; `address << 7` wraps. -/
def makeSonyCode (length code address : Nat) : Nat :=
  if length = 12 then uint32 code ||| uint32 (address <<< 7) ||| SONY_LENGTH_12
  else if length = 15 then uint32 code ||| uint32 (address <<< 7) ||| SONY_LENGTH_15
  else if length = 20 then uint32 code ||| uint32 (address <<< 7) ||| SONY_LENGTH_20
  else 4294967295

namespace IrSonyTV

/-- `IrSonyTV::myParameters` (pulse-length coding, base unit 600 us;
`packetLength = 0` marks the variable-length protocol). -/
def myParameters : Parameters :=
  { carrier := 40000,
    zeroHigh := 600,
    zeroLow := 600,
    oneHigh := 2 * 600,
    oneLow := 600,
    startHigh := 4 * 600,
    startLow := 600,
    repeatTime := 50000,
    repeatHigh := 4 * 600,
    repeatLow := 600,
    packetLength := 0,
    middleStopBit := 0,
    repeats := 3,
    fastRepeats := false }

/-- `IrSonyTV::send(cmtCommand, delay, repeats)`: strips the length tag from
the data word (`data1 = cmtCommand & ~SONY_LENGTH_MASK`, with
`~SONY_LENGTH_MASK = 0x3FFFFFFF` over `uint32_t`), resolves the packet bit
count from the tag once, and stores it in the per-transmission
`parameters.packetLength` before starting. -/
def send (step : EngineState → EngineState) (fuel cmtCommand delay repeats : Nat)
    (s : EngineState) : Option EngineState :=
  (waitUntilComplete step fuel s).map fun s0 =>
    let s1 : EngineState := { s0 with data1 := cmtCommand &&& 0x3FFFFFFF, data2 := 0, protocol := Protocol.p_SONY_TV }
    let s2 : EngineState := { s1 with parameters := myParameters }
    let s3 : EngineState :=
      if repeats ≠ 0 then { s2 with parameters := { s2.parameters with repeats := repeats } } else s2
    let length : Nat :=
      if cmtCommand &&& SONY_LENGTH_MASK = SONY_LENGTH_12 then 12
      else if cmtCommand &&& SONY_LENGTH_MASK = SONY_LENGTH_15 then 15
      else if cmtCommand &&& SONY_LENGTH_MASK = SONY_LENGTH_20 then 20
      else 0
    let s4 : EngineState := { s3 with parameters := { s3.parameters with packetLength := length } }
    start delay s4

end IrSonyTV

/-- Modelled from the spec: the `send` entry points of `IrBlaupunktDVD` and
`IrPanasonicDVD` are referenced from `remoteController.cpp` but their class
definitions are not under `src/`.  Following the spec's send contract
(spec sections 4.2, 5 and 6) and the uniform pattern of the five protocol
classes whose source is present, parameterised by the missing class's
descriptor and protocol selector. -/
def specDvdSend (desc : Parameters) (prot : Protocol)
    (step : EngineState → EngineState) (fuel code delay repeats : Nat)
    (s : EngineState) : Option EngineState :=
  (waitUntilComplete step fuel s).map fun s0 =>
    let s1 : EngineState := { s0 with data1 := code, data2 := 0, protocol := prot }
    let s2 : EngineState := { s1 with parameters := desc }
    let s3 : EngineState :=
      if repeats ≠ 0 then { s2 with parameters := { s2.parameters with repeats := repeats } } else s2
    start delay s3

/-- Modelled from the spec: the per-interval encoder consulted by
`IrRemote::cmtCallback`, which is declared but not defined under `src/`.
Chooses the mark/space pair for one data bit (pulse-distance or pulse-length
per the descriptor's duration fields, spec section 4.1). -/
def bitInterval (p : Parameters) (bit : Bool) : Nat × Nat :=
  if bit then (p.oneHigh, p.oneLow) else (p.zeroHigh, p.zeroLow)

/-- Modelled from the spec: the mark/space pairs of `count` data bits taken
LSB first from `data` (spec section 4.1). -/
def fieldIntervals (p : Parameters) (data count : Nat) : List (Nat × Nat) :=
  (List.range count).map fun i => bitInterval p (data.testBit i)

/-- Modelled from the spec: the hardware intervals of one full packet as
produced by the interrupt-driven state machine (`IrRemote::cmtCallback`,
declared but not defined under `src/`): a start leader, the
`packetLength` data bits split into a `data1` field and a `data2` field at
`middleStopBit` when that is non-zero (with a middle stop pulse between
them, per the header's packet-format diagram), then a stop pulse. -/
def packetIntervals (p : Parameters) (d1 d2 : Nat) : List (Nat × Nat) :=
  if p.middleStopBit = 0 then
    ((p.startHigh, p.startLow) :: fieldIntervals p d1 p.packetLength)
      ++ [(p.zeroHigh, p.zeroLow)]
  else
    ((p.startHigh, p.startLow) :: fieldIntervals p d1 p.middleStopBit)
      ++ [(p.oneHigh, p.startLow)]
      ++ fieldIntervals p d2 (p.packetLength - p.middleStopBit)
      ++ [(p.zeroHigh, p.zeroLow)]

/-- Modelled from the spec: a fast repeat is leader + stop only
(spec section 3, `useFastRepeats`). -/
def fastRepeatIntervals (p : Parameters) : List (Nat × Nat) :=
  [(p.repeatHigh, p.repeatLow), (p.zeroHigh, p.zeroLow)]

/-- Modelled from the spec: `n` full packets in sequence. -/
def repeatedPackets (p : Parameters) (d1 d2 : Nat) : Nat → List (Nat × Nat)
  | 0 => []
  | n + 1 => packetIntervals p d1 d2 ++ repeatedPackets p d1 d2 n

/-- Modelled from the spec: `n` fast repeats in sequence. -/
def repeatedFast (p : Parameters) : Nat → List (Nat × Nat)
  | 0 => []
  | n + 1 => fastRepeatIntervals p ++ repeatedFast p n

/-- Modelled from the spec: all hardware intervals of one complete
transmission: the packet repeated `repeats` times, where with `fastRepeats`
every repeat after the first is abbreviated to leader + stop
(spec sections 4.2 and 8). -/
def transmissionIntervals (p : Parameters) (d1 d2 : Nat) : List (Nat × Nat) :=
  if p.fastRepeats then
    packetIntervals p d1 d2 ++ repeatedFast p (p.repeats - 1)
  else
    repeatedPackets p d1 d2 p.repeats

/-- Boot state of the engine: static members zero-initialised, not busy. -/
def initialState : EngineState :=
  { parameters :=
      { carrier := 0, zeroHigh := 0, zeroLow := 0, oneHigh := 0, oneLow := 0,
        startHigh := 0, startLow := 0, repeatTime := 0, repeatHigh := 0,
        repeatLow := 0, packetLength := 0, middleStopBit := 0, repeats := 0,
        fastRepeats := false },
    state := State.s_Initial,
    data1 := 0,
    data2 := 0,
    protocol := Protocol.p_LASER,
    busyFlag := false,
    delayInMilliseconds := 0,
    cmtCarrierHalfPeriod := 0,
    cmtMark := 0,
    cmtSpace := 0 }

/-- Engine state after a concrete Laser-DVD `send` from boot (PLAY code,
100 ms post-delay, default repeats); used to witness satisfiability. -/
def laserDemoC1 : EngineState :=
  (IrLaserDVD.send id 1 0xA05FFF00 100 0 initialState).getD initialState

/-- Engine state after a concrete Sony-TV `send` from boot
(`makeSonyCode 15 0x18 0x97`, the STOP code). -/
def sonyDemoC3 : EngineState :=
  (IrSonyTV.send id 1 0x80004B98 0 0 initialState).getD initialState

/-- Interrupt-environment step that completes the in-flight transmission:
clears the busy flag (the effect of the final `pitCallback`). -/
def clearBusy (s : EngineState) : EngineState :=
  { s with busyFlag := false }

/-- Engine state after a concrete Laser-DVD `send` with repeat override 5. -/
def laserDemoC5 : EngineState :=
  (IrLaserDVD.send clearBusy 1 100 0 5 initialState).getD initialState

/-- Engine state after a further Laser-DVD `send` with `repeats = 0`,
issued while `laserDemoC5` is still busy. -/
def laserDemoC5b : EngineState :=
  (IrLaserDVD.send clearBusy 1 200 0 0 laserDemoC5).getD initialState

/-- Engine state after a concrete Samsung-DVD `send` from boot
(ON_OFF code, DVD device). -/
def samsungDemoC7 : EngineState :=
  (IrSamsungDVD.send id 1 0xFF007 0 0x20 0 initialState).getD initialState

/-- Engine state after a concrete Teac-PVR `send` from boot. -/
def teacDemoC8 : EngineState :=
  (IrTeacPVR.send id 1 0xBF00AE51 0 0 initialState).getD initialState

/-- Engine state after a concrete Laser-DVD `send` used to witness the
wait-before-write factoring. -/
def laserDemoC9 : EngineState :=
  (IrLaserDVD.send id 1 12345 0 0 initialState).getD initialState

/-! Helper lemmas shared between the claim theorems. -/

theorem waitUntilComplete_some {step : EngineState → EngineState} {fuel : Nat}
    {s s₀ : EngineState} (h : waitUntilComplete step fuel s = some s₀) :
    s₀.busyFlag = false ∧ ∃ n, n ≤ fuel ∧ s₀ = step^[n] s := by
  induction fuel generalizing s with
  | zero =>
    cases hb : s.busyFlag with
    | false =>
      simp only [waitUntilComplete, hb, Bool.false_eq_true, if_false,
        Option.some.injEq] at h
      exact ⟨h ▸ hb, 0, Nat.le_refl 0, h.symm⟩
    | true =>
      simp [waitUntilComplete, hb] at h
  | succ fuel ih =>
    cases hb : s.busyFlag with
    | false =>
      simp only [waitUntilComplete, hb, Bool.false_eq_true, if_false,
        Option.some.injEq] at h
      exact ⟨h ▸ hb, 0, Nat.zero_le _, h.symm⟩
    | true =>
      simp only [waitUntilComplete, hb, if_true] at h
      obtain ⟨h1, n, hn, h2⟩ := ih h
      exact ⟨h1, n + 1, Nat.succ_le_succ hn,
        by rw [h2, Function.iterate_succ_apply]⟩

theorem waitUntilComplete_of_not_busy {step : EngineState → EngineState}
    {fuel : Nat} {s : EngineState} (h : s.busyFlag = false) :
    waitUntilComplete step fuel s = some s := by
  cases fuel <;> simp [waitUntilComplete, h]

theorem repeatedPackets_length (p : Parameters) (d1 d2 n : Nat) :
    (repeatedPackets p d1 d2 n).length = n * (packetIntervals p d1 d2).length := by
  induction n with
  | zero => simp [repeatedPackets]
  | succ n ih => simp [repeatedPackets, ih, Nat.succ_mul, Nat.add_comm]

theorem repeatedFast_length (p : Parameters) (n : Nat) :
    (repeatedFast p n).length = 2 * n := by
  induction n with
  | zero => simp [repeatedFast]
  | succ n ih => simp [repeatedFast, fastRepeatIntervals, ih]; omega

theorem packetIntervals_length (p : Parameters) (d1 d2 : Nat)
    (h : p.middleStopBit ≤ p.packetLength) :
    (packetIntervals p d1 d2).length =
      p.packetLength + 1 + 1 + (if p.middleStopBit ≠ 0 then 1 else 0) := by
  by_cases hm : p.middleStopBit = 0
  · simp [packetIntervals, fieldIntervals, hm]
  · simp [packetIntervals, fieldIntervals, hm]
    omega

theorem sony_payload {code address : Nat} (hc : code < 128) (ha : address < 8192) :
    uint32 code ||| uint32 (address <<< 7) = 128 * address + code := by
  have h1 : uint32 code = code := by unfold uint32; omega
  have h2 : address <<< 7 = 128 * address := by
    rw [Nat.shiftLeft_eq]; ring
  have h3 : uint32 (address <<< 7) = 128 * address := by
    unfold uint32; rw [h2]; omega
  have h4 : (2 : Nat) ^ 7 = 128 := by norm_num
  have h5 := Nat.mul_add_lt_is_or (i := 7) (b := code) (by omega) address
  rw [h4] at h5
  rw [h1, h3, Nat.or_comm, ← h5]

theorem sony_tag_or {p : Nat} (k : Nat) (hp : p < 2 ^ 30) :
    p ||| 2 ^ 30 * k = 2 ^ 30 * k + p := by
  have h := Nat.mul_add_lt_is_or (i := 30) (b := p) hp k
  rw [Nat.or_comm, ← h]

theorem high_mask_eval {p : Nat} (k : Nat) (hp : p < 2 ^ 30)
    (hk : k = 0 ∨ k = 1 ∨ k = 2) :
    (2 ^ 30 * k + p) &&& (2 ^ 31 ||| 2 ^ 30) = 2 ^ 30 * k := by
  rw [Nat.and_or_distrib_left, Nat.and_two_pow, Nat.and_two_pow]
  rcases hk with rfl | rfl | rfl
  · have t31 : (2 ^ 30 * 0 + p).testBit 31 = false :=
      Nat.testBit_lt_two_pow (by omega)
    have t30 : (2 ^ 30 * 0 + p).testBit 30 = false :=
      Nat.testBit_lt_two_pow (by omega)
    rw [t31, t30]
    simp
  · have t31 : (2 ^ 30 * 1 + p).testBit 31 = false :=
      Nat.testBit_lt_two_pow (by omega)
    have t30 : (2 ^ 30 * 1 + p).testBit 30 = true := by
      rw [Nat.testBit_to_div_mod]
      have hdiv : (2 ^ 30 * 1 + p) / 2 ^ 30 = 1 := by omega
      rw [hdiv]
      decide
    rw [t31, t30]
    simp
  · have t31 : (2 ^ 30 * 2 + p).testBit 31 = true := by
      rw [Nat.testBit_to_div_mod]
      have hdiv : (2 ^ 30 * 2 + p) / 2 ^ 31 = 1 := by omega
      rw [hdiv]
      decide
    have t30 : (2 ^ 30 * 2 + p).testBit 30 = false := by
      rw [Nat.testBit_to_div_mod]
      have hdiv : (2 ^ 30 * 2 + p) / 2 ^ 30 = 2 := by omega
      rw [hdiv]
      decide
    rw [t31, t30]
    simp

theorem makeSonyCode_decode (code address k : Nat) (hc : code < 128)
    (ha : address < 8192) (hk : k = 0 ∨ k = 1 ∨ k = 2) :
    ((uint32 code ||| uint32 (address <<< 7) ||| 2 ^ 30 * k) &&& SONY_LENGTH_MASK
        = 2 ^ 30 * k) ∧
    ((uint32 code ||| uint32 (address <<< 7) ||| 2 ^ 30 * k) &&& 0x3FFFFFFF
        = 128 * address + code) := by
  have hpay := sony_payload hc ha
  have hplt : 128 * address + code < 2 ^ 30 := by omega
  rw [hpay, sony_tag_or k hplt]
  constructor
  · have hmask : SONY_LENGTH_MASK = (2 ^ 31 ||| 2 ^ 30 : Nat) := by decide
    rw [hmask]
    exact high_mask_eval k hplt hk
  · have hmask : (0x3FFFFFFF : Nat) = 2 ^ 30 - 1 := by norm_num
    rw [hmask, Nat.and_pow_two_sub_one_eq_mod]
    omega

/-! Claim theorems. -/

/-- C6: for every compiled-in descriptor the logic-0/logic-1 timing pairs
match the protocol's documented IRP ratios: the pulse-distance descriptors
(Laser DVD, Teac PVR, Teac DVD, Samsung DVD) have a fixed mark
(`zeroHigh = oneHigh`) with `oneLow = 3 * zeroLow` and `zeroLow = zeroHigh`
(IRP `1,-1` versus `1,-3`); the Sony pulse-length descriptor has a fixed
space (`zeroLow = oneLow`) with `oneHigh = 2 * zeroHigh`. -/
theorem c6_descriptor_timing_ratios :
    (IrLaserDVD.myParameters.zeroHigh = IrLaserDVD.myParameters.oneHigh ∧
     IrLaserDVD.myParameters.oneLow = 3 * IrLaserDVD.myParameters.zeroLow ∧
     IrLaserDVD.myParameters.zeroLow = IrLaserDVD.myParameters.zeroHigh) ∧
    (IrTeacPVR.myParameters.zeroHigh = IrTeacPVR.myParameters.oneHigh ∧
     IrTeacPVR.myParameters.oneLow = 3 * IrTeacPVR.myParameters.zeroLow ∧
     IrTeacPVR.myParameters.zeroLow = IrTeacPVR.myParameters.zeroHigh) ∧
    (IrTeacDVD.myParameters.zeroHigh = IrTeacDVD.myParameters.oneHigh ∧
     IrTeacDVD.myParameters.oneLow = 3 * IrTeacDVD.myParameters.zeroLow ∧
     IrTeacDVD.myParameters.zeroLow = IrTeacDVD.myParameters.zeroHigh) ∧
    (IrSamsungDVD.myParameters.zeroHigh = IrSamsungDVD.myParameters.oneHigh ∧
     IrSamsungDVD.myParameters.oneLow = 3 * IrSamsungDVD.myParameters.zeroLow ∧
     IrSamsungDVD.myParameters.zeroLow = IrSamsungDVD.myParameters.zeroHigh) ∧
    (IrSonyTV.myParameters.zeroLow = IrSonyTV.myParameters.oneLow ∧
     IrSonyTV.myParameters.oneHigh = 2 * IrSonyTV.myParameters.zeroHigh) := by
  decide

/-- C10: `makeSonyCode` returns the sentinel `-1U` (`0xFFFFFFFF`) for every
length other than 12, 15 or 20, for arbitrary (unvalidated) code and address
words. -/
theorem c10_invalid_length_sentinel (length code address : Nat)
    (h12 : length ≠ 12) (h15 : length ≠ 15) (h20 : length ≠ 20) :
    makeSonyCode length code address = 4294967295 := by
  simp [makeSonyCode, h12, h15, h20]

/-- C10 witness: `makeSonyCode 13 0xFFFFFFFF 0xFFFFFFFF` is the sentinel. -/
theorem c10_witness :
    makeSonyCode 13 0xFFFFFFFF 0xFFFFFFFF = 4294967295 :=
  c10_invalid_length_sentinel 13 0xFFFFFFFF 0xFFFFFFFF
    (by decide) (by decide) (by decide)

/-- C2: one full packet produces exactly `packetLength` bit intervals
plus one start interval plus one stop interval plus one extra interval when
`middleStopBit` is non-zero; a full transmission repeats this `repeats`
times, and with `fastRepeats` every repeat after the first is exactly 2
intervals (leader + stop).  The interval source is modelled from the spec
(see `packetIntervals`) since `IrRemote::cmtCallback` is only declared under
`src/`. -/
theorem c2_interval_counts (p : Parameters) (d1 d2 : Nat)
    (h : p.middleStopBit ≤ p.packetLength) :
    (packetIntervals p d1 d2).length
        = p.packetLength + 1 + 1 + (if p.middleStopBit ≠ 0 then 1 else 0) ∧
    (fastRepeatIntervals p).length = 2 ∧
    (p.fastRepeats = false →
      (transmissionIntervals p d1 d2).length
        = p.repeats *
            (p.packetLength + 1 + 1 + (if p.middleStopBit ≠ 0 then 1 else 0))) ∧
    (p.fastRepeats = true →
      (transmissionIntervals p d1 d2).length
        = (p.packetLength + 1 + 1 + (if p.middleStopBit ≠ 0 then 1 else 0))
            + 2 * (p.repeats - 1)) := by
  have hp := packetIntervals_length p d1 d2 h
  refine ⟨hp, rfl, fun hf => ?_, fun hf => ?_⟩
  · rw [transmissionIntervals, hf]
    simp [repeatedPackets_length, hp]
  · rw [transmissionIntervals, hf]
    simp [repeatedFast_length, hp]

/-- C2 witness: the Samsung DVD descriptor (36 data bits, middle stop at
bit 16, 1 repeat, no fast repeats) with device word `0x20` and command
`0xFF007`. -/
theorem c2_witness :
    IrSamsungDVD.myParameters.middleStopBit ≤ IrSamsungDVD.myParameters.packetLength ∧
    ((packetIntervals IrSamsungDVD.myParameters 0x20 0xFF007).length
        = IrSamsungDVD.myParameters.packetLength + 1 + 1 +
            (if IrSamsungDVD.myParameters.middleStopBit ≠ 0 then 1 else 0) ∧
     (fastRepeatIntervals IrSamsungDVD.myParameters).length = 2 ∧
     (IrSamsungDVD.myParameters.fastRepeats = false →
       (transmissionIntervals IrSamsungDVD.myParameters 0x20 0xFF007).length
         = IrSamsungDVD.myParameters.repeats *
             (IrSamsungDVD.myParameters.packetLength + 1 + 1 +
               (if IrSamsungDVD.myParameters.middleStopBit ≠ 0 then 1 else 0))) ∧
     (IrSamsungDVD.myParameters.fastRepeats = true →
       (transmissionIntervals IrSamsungDVD.myParameters 0x20 0xFF007).length
         = (IrSamsungDVD.myParameters.packetLength + 1 + 1 +
             (if IrSamsungDVD.myParameters.middleStopBit ≠ 0 then 1 else 0))
             + 2 * (IrSamsungDVD.myParameters.repeats - 1))) :=
  ⟨by decide, c2_interval_counts IrSamsungDVD.myParameters 0x20 0xFF007 (by decide)⟩

/-- C4: packing a (length, code, address) triple with `makeSonyCode` and
decoding as `IrSonyTV::send` does (length by matching the value masked with
`SONY_LENGTH_MASK` against the three tags; the payload by clearing the mask,
with the 7-bit code in the low bits and the address above it) reproduces the
original triple exactly, for every length in {12, 15, 20}, every 7-bit code
and every address representable in that length's field. -/
theorem c4_sony_roundtrip (len code address : Nat)
    (hlen : (len = 12 ∧ address < 32) ∨ (len = 15 ∧ address < 256) ∨
            (len = 20 ∧ address < 8192))
    (hcode : code < 128) :
    (if makeSonyCode len code address &&& SONY_LENGTH_MASK = SONY_LENGTH_12 then 12
     else if makeSonyCode len code address &&& SONY_LENGTH_MASK = SONY_LENGTH_15 then 15
     else if makeSonyCode len code address &&& SONY_LENGTH_MASK = SONY_LENGTH_20 then 20
     else 0) = len ∧
    (makeSonyCode len code address &&& 0x3FFFFFFF) &&& 127 = code ∧
    (makeSonyCode len code address &&& 0x3FFFFFFF) >>> 7 = address := by
  have h128 : (2 : Nat) ^ 7 = 128 := by norm_num
  rcases hlen with ⟨rfl, ha⟩ | ⟨rfl, ha⟩ | ⟨rfl, ha⟩
  · have ha' : address < 8192 := by omega
    have hdef : makeSonyCode 12 code address
        = uint32 code ||| uint32 (address <<< 7) ||| 2 ^ 30 * 0 := by
      simp [makeSonyCode, SONY_LENGTH_12]
    obtain ⟨hmask, hpayload⟩ :=
      makeSonyCode_decode code address 0 hcode ha' (Or.inl rfl)
    rw [hdef, hmask, hpayload]
    refine ⟨by simp [SONY_LENGTH_12], ?_, ?_⟩
    · rw [show (127 : Nat) = 2 ^ 7 - 1 from by norm_num,
        Nat.and_pow_two_sub_one_eq_mod]
      omega
    · rw [Nat.shiftRight_eq_div_pow, h128]
      omega
  · have ha' : address < 8192 := by omega
    have hdef : makeSonyCode 15 code address
        = uint32 code ||| uint32 (address <<< 7) ||| 2 ^ 30 * 2 := by
      simp [makeSonyCode, SONY_LENGTH_15]
    obtain ⟨hmask, hpayload⟩ :=
      makeSonyCode_decode code address 2 hcode ha' (Or.inr (Or.inr rfl))
    rw [hdef, hmask, hpayload]
    refine ⟨by simp [SONY_LENGTH_12, SONY_LENGTH_15], ?_, ?_⟩
    · rw [show (127 : Nat) = 2 ^ 7 - 1 from by norm_num,
        Nat.and_pow_two_sub_one_eq_mod]
      omega
    · rw [Nat.shiftRight_eq_div_pow, h128]
      omega
  · have hdef : makeSonyCode 20 code address
        = uint32 code ||| uint32 (address <<< 7) ||| 2 ^ 30 * 1 := by
      simp [makeSonyCode, SONY_LENGTH_20]
    obtain ⟨hmask, hpayload⟩ :=
      makeSonyCode_decode code address 1 hcode ha (Or.inr (Or.inl rfl))
    rw [hdef, hmask, hpayload]
    refine ⟨by simp [SONY_LENGTH_12, SONY_LENGTH_15, SONY_LENGTH_20], ?_, ?_⟩
    · rw [show (127 : Nat) = 2 ^ 7 - 1 from by norm_num,
        Nat.and_pow_two_sub_one_eq_mod]
      omega
    · rw [Nat.shiftRight_eq_div_pow, h128]
      omega

/-- C4 witness: the boundary case length 20 with the full-width code `0x7F`
and address `0xFF` decodes back exactly. -/
theorem c4_witness :
    (if makeSonyCode 20 127 255 &&& SONY_LENGTH_MASK = SONY_LENGTH_12 then 12
     else if makeSonyCode 20 127 255 &&& SONY_LENGTH_MASK = SONY_LENGTH_15 then 15
     else if makeSonyCode 20 127 255 &&& SONY_LENGTH_MASK = SONY_LENGTH_20 then 20
     else 0) = 20 ∧
    (makeSonyCode 20 127 255 &&& 0x3FFFFFFF) &&& 127 = 127 ∧
    (makeSonyCode 20 127 255 &&& 0x3FFFFFFF) >>> 7 = 255 :=
  c4_sony_roundtrip 20 127 255 (Or.inr (Or.inr ⟨rfl, by decide⟩)) (by decide)

/-- C1 counterexample: the claim says `send` sets the state-machine state to
`Start`, but a concrete Laser-DVD `send` from the boot state leaves the state
set to `s_Initial` (the `state = s_Initial` assignment in `IrRemote::start`),
which differs from `s_Start`. -/
theorem c1_counterexample :
    (IrLaserDVD.send id 1 0xA05FFF00 100 0 initialState).map EngineState.state
        = some State.s_Initial ∧ State.s_Initial ≠ State.s_Start := by
  exact ⟨by decide, by decide⟩

/-- C1 (amended): for every protocol class, a successful `send` programs the
carrier generator from the descriptor's carrier frequency (half period
`8 MHz / carrier / 2`), restarts the transmission state machine at
`s_Initial` (not `s_Start`; the interrupt sequence then advances it), and
arms the first hardware interval with the descriptor's `startHigh` /
`startLow` durations before returning. -/
theorem c1_start_configuration :
    (∀ step fuel code delay repeats s s',
      IrLaserDVD.send step fuel code delay repeats s = some s' →
      s'.cmtCarrierHalfPeriod = 8000000 / IrLaserDVD.myParameters.carrier / 2 ∧
      s'.state = State.s_Initial ∧
      s'.cmtMark = IrLaserDVD.myParameters.startHigh ∧
      s'.cmtSpace = IrLaserDVD.myParameters.startLow) ∧
    (∀ step fuel code delay repeats s s',
      IrTeacPVR.send step fuel code delay repeats s = some s' →
      s'.cmtCarrierHalfPeriod = 8000000 / IrTeacPVR.myParameters.carrier / 2 ∧
      s'.state = State.s_Initial ∧
      s'.cmtMark = IrTeacPVR.myParameters.startHigh ∧
      s'.cmtSpace = IrTeacPVR.myParameters.startLow) ∧
    (∀ step fuel code delay repeats s s',
      IrTeacDVD.send step fuel code delay repeats s = some s' →
      s'.cmtCarrierHalfPeriod = 8000000 / IrTeacDVD.myParameters.carrier / 2 ∧
      s'.state = State.s_Initial ∧
      s'.cmtMark = IrTeacDVD.myParameters.startHigh ∧
      s'.cmtSpace = IrTeacDVD.myParameters.startLow) ∧
    (∀ step fuel code delay device repeats s s',
      IrSamsungDVD.send step fuel code delay device repeats s = some s' →
      s'.cmtCarrierHalfPeriod = 8000000 / IrSamsungDVD.myParameters.carrier / 2 ∧
      s'.state = State.s_Initial ∧
      s'.cmtMark = IrSamsungDVD.myParameters.startHigh ∧
      s'.cmtSpace = IrSamsungDVD.myParameters.startLow) ∧
    (∀ step fuel cmtCommand delay repeats s s',
      IrSonyTV.send step fuel cmtCommand delay repeats s = some s' →
      s'.cmtCarrierHalfPeriod = 8000000 / IrSonyTV.myParameters.carrier / 2 ∧
      s'.state = State.s_Initial ∧
      s'.cmtMark = IrSonyTV.myParameters.startHigh ∧
      s'.cmtSpace = IrSonyTV.myParameters.startLow) := by
  refine ⟨?_, ?_, ?_, ?_, ?_⟩
  · intro step fuel code delay repeats s s' h
    obtain ⟨s₀, hw, rfl⟩ := Option.map_eq_some'.mp h
    dsimp only
    by_cases hr : repeats ≠ 0
    · rw [if_pos hr]
      exact ⟨rfl, rfl, rfl, rfl⟩
    · rw [if_neg hr]
      exact ⟨rfl, rfl, rfl, rfl⟩
  · intro step fuel code delay repeats s s' h
    obtain ⟨s₀, hw, rfl⟩ := Option.map_eq_some'.mp h
    dsimp only
    by_cases hr : repeats ≠ 0
    · rw [if_pos hr]
      exact ⟨rfl, rfl, rfl, rfl⟩
    · rw [if_neg hr]
      exact ⟨rfl, rfl, rfl, rfl⟩
  · intro step fuel code delay repeats s s' h
    obtain ⟨s₀, hw, rfl⟩ := Option.map_eq_some'.mp h
    dsimp only
    by_cases hr : repeats ≠ 0
    · rw [if_pos hr]
      exact ⟨rfl, rfl, rfl, rfl⟩
    · rw [if_neg hr]
      exact ⟨rfl, rfl, rfl, rfl⟩
  · intro step fuel code delay device repeats s s' h
    obtain ⟨s₀, hw, rfl⟩ := Option.map_eq_some'.mp h
    dsimp only
    by_cases hr : repeats ≠ 0
    · rw [if_pos hr]
      exact ⟨rfl, rfl, rfl, rfl⟩
    · rw [if_neg hr]
      exact ⟨rfl, rfl, rfl, rfl⟩
  · intro step fuel cmtCommand delay repeats s s' h
    obtain ⟨s₀, hw, rfl⟩ := Option.map_eq_some'.mp h
    dsimp only
    by_cases hr : repeats ≠ 0
    · rw [if_pos hr]
      exact ⟨rfl, rfl, rfl, rfl⟩
    · rw [if_neg hr]
      exact ⟨rfl, rfl, rfl, rfl⟩

/-- C1 witness: a concrete Laser-DVD `send` from the boot state realises the
amended postcondition. -/
theorem c1_witness :
    IrLaserDVD.send id 1 0xA05FFF00 100 0 initialState = some laserDemoC1 ∧
    (laserDemoC1.cmtCarrierHalfPeriod
        = 8000000 / IrLaserDVD.myParameters.carrier / 2 ∧
     laserDemoC1.state = State.s_Initial ∧
     laserDemoC1.cmtMark = IrLaserDVD.myParameters.startHigh ∧
     laserDemoC1.cmtSpace = IrLaserDVD.myParameters.startLow) :=
  ⟨rfl, c1_start_configuration.1 id 1 0xA05FFF00 100 0 initialState laserDemoC1 rfl⟩

/-- C3: the Sony descriptor's `packetLength` is 0 (variable length);
`IrSonyTV::send` resolves the true bit count (12, 15 or 20) from the
top-two-bit length tag of the command once at send time, stores it in the
per-transmission `parameters.packetLength`, and strips the tag from the
transmitted data word (`data1 = command & ~SONY_LENGTH_MASK`). -/
theorem c3_sony_length_resolution :
    IrSonyTV.myParameters.packetLength = 0 ∧
    (∀ step fuel cmtCommand delay repeats s s',
      IrSonyTV.send step fuel cmtCommand delay repeats s = some s' →
      s'.data1 = cmtCommand &&& 0x3FFFFFFF ∧
      (cmtCommand &&& SONY_LENGTH_MASK = SONY_LENGTH_12 →
        s'.parameters.packetLength = 12) ∧
      (cmtCommand &&& SONY_LENGTH_MASK = SONY_LENGTH_15 →
        s'.parameters.packetLength = 15) ∧
      (cmtCommand &&& SONY_LENGTH_MASK = SONY_LENGTH_20 →
        s'.parameters.packetLength = 20)) := by
  refine ⟨rfl, ?_⟩
  intro step fuel cmtCommand delay repeats s s' h
  obtain ⟨s₀, hw, rfl⟩ := Option.map_eq_some'.mp h
  dsimp only
  refine ⟨?_, fun ht => ?_, fun ht => ?_, fun ht => ?_⟩
  · by_cases hr : repeats ≠ 0
    · rw [if_pos hr]
      rfl
    · rw [if_neg hr]
      rfl
  · rw [ht, if_pos rfl]
    by_cases hr : repeats ≠ 0
    · rw [if_pos hr]
      rfl
    · rw [if_neg hr]
      rfl
  · have h12 : SONY_LENGTH_15 ≠ SONY_LENGTH_12 := by decide
    rw [ht, if_neg h12, if_pos rfl]
    by_cases hr : repeats ≠ 0
    · rw [if_pos hr]
      rfl
    · rw [if_neg hr]
      rfl
  · have h12 : SONY_LENGTH_20 ≠ SONY_LENGTH_12 := by decide
    have h15 : SONY_LENGTH_20 ≠ SONY_LENGTH_15 := by decide
    rw [ht, if_neg h12, if_neg h15, if_pos rfl]
    by_cases hr : repeats ≠ 0
    · rw [if_pos hr]
      rfl
    · rw [if_neg hr]
      rfl

/-- C3 witness: sending `makeSonyCode 15 0x18 0x97` (the STOP code,
value `0x80004B98`) from the boot state strips the tag and stores packet
length 15. -/
theorem c3_witness :
    IrSonyTV.send id 1 0x80004B98 0 0 initialState = some sonyDemoC3 ∧
    sonyDemoC3.data1 = 0x80004B98 &&& 0x3FFFFFFF ∧
    sonyDemoC3.parameters.packetLength = 15 :=
  ⟨rfl,
   (c3_sony_length_resolution.2 id 1 0x80004B98 0 0 initialState sonyDemoC3 rfl).1,
   (c3_sony_length_resolution.2 id 1 0x80004B98 0 0 initialState sonyDemoC3
      rfl).2.2.1 (by decide)⟩

/-- C5: for every protocol class, a non-zero `repeats` argument overrides the
descriptor's default repeat count for that call only, a zero argument leaves
the descriptor default, and a subsequent `send` with `repeats = 0` again uses
the descriptor default because `parameters` is re-copied from the constant
descriptor on every call. -/
theorem c5_repeat_override :
    (∀ step fuel code delay repeats s s',
      IrLaserDVD.send step fuel code delay repeats s = some s' →
      s'.parameters.repeats
        = if repeats ≠ 0 then repeats else IrLaserDVD.myParameters.repeats) ∧
    (∀ step fuel code delay repeats s s',
      IrTeacPVR.send step fuel code delay repeats s = some s' →
      s'.parameters.repeats
        = if repeats ≠ 0 then repeats else IrTeacPVR.myParameters.repeats) ∧
    (∀ step fuel code delay repeats s s',
      IrTeacDVD.send step fuel code delay repeats s = some s' →
      s'.parameters.repeats
        = if repeats ≠ 0 then repeats else IrTeacDVD.myParameters.repeats) ∧
    (∀ step fuel code delay device repeats s s',
      IrSamsungDVD.send step fuel code delay device repeats s = some s' →
      s'.parameters.repeats
        = if repeats ≠ 0 then repeats else IrSamsungDVD.myParameters.repeats) ∧
    (∀ step fuel cmtCommand delay repeats s s',
      IrSonyTV.send step fuel cmtCommand delay repeats s = some s' →
      s'.parameters.repeats
        = if repeats ≠ 0 then repeats else IrSonyTV.myParameters.repeats) ∧
    (∀ step fuel₁ fuel₂ code₁ code₂ delay₁ delay₂ repeats s s' s'',
      IrLaserDVD.send step fuel₁ code₁ delay₁ repeats s = some s' →
      IrLaserDVD.send step fuel₂ code₂ delay₂ 0 s' = some s'' →
      s''.parameters.repeats = IrLaserDVD.myParameters.repeats) := by
  have laser : ∀ step fuel code delay repeats s s',
      IrLaserDVD.send step fuel code delay repeats s = some s' →
      s'.parameters.repeats
        = if repeats ≠ 0 then repeats else IrLaserDVD.myParameters.repeats := by
    intro step fuel code delay repeats s s' h
    obtain ⟨s₀, hw, rfl⟩ := Option.map_eq_some'.mp h
    dsimp only
    by_cases hr : repeats ≠ 0
    · rw [if_pos hr, if_pos hr]
      rfl
    · rw [if_neg hr, if_neg hr]
      rfl
  refine ⟨laser, ?_, ?_, ?_, ?_, ?_⟩
  · intro step fuel code delay repeats s s' h
    obtain ⟨s₀, hw, rfl⟩ := Option.map_eq_some'.mp h
    dsimp only
    by_cases hr : repeats ≠ 0
    · rw [if_pos hr, if_pos hr]
      rfl
    · rw [if_neg hr, if_neg hr]
      rfl
  · intro step fuel code delay repeats s s' h
    obtain ⟨s₀, hw, rfl⟩ := Option.map_eq_some'.mp h
    dsimp only
    by_cases hr : repeats ≠ 0
    · rw [if_pos hr, if_pos hr]
      rfl
    · rw [if_neg hr, if_neg hr]
      rfl
  · intro step fuel code delay device repeats s s' h
    obtain ⟨s₀, hw, rfl⟩ := Option.map_eq_some'.mp h
    dsimp only
    by_cases hr : repeats ≠ 0
    · rw [if_pos hr, if_pos hr]
      rfl
    · rw [if_neg hr, if_neg hr]
      rfl
  · intro step fuel cmtCommand delay repeats s s' h
    obtain ⟨s₀, hw, rfl⟩ := Option.map_eq_some'.mp h
    dsimp only
    by_cases hr : repeats ≠ 0
    · rw [if_pos hr, if_pos hr]
      rfl
    · rw [if_neg hr, if_neg hr]
      rfl
  · intro step fuel₁ fuel₂ code₁ code₂ delay₁ delay₂ repeats s s' s'' _h1 h2
    have h := laser step fuel₂ code₂ delay₂ 0 s' s'' h2
    simpa using h

/-- C5 witness: a Laser-DVD `send` with repeat override 5 from the boot
state stores repeat count 5. -/
theorem c5_witness :
    (IrLaserDVD.send clearBusy 1 100 0 5 initialState = some laserDemoC5 ∧
     laserDemoC5.parameters.repeats
       = (if (5 : Nat) ≠ 0 then 5 else IrLaserDVD.myParameters.repeats)) ∧
    (IrLaserDVD.send clearBusy 1 200 0 0 laserDemoC5 = some laserDemoC5b ∧
     laserDemoC5b.parameters.repeats = IrLaserDVD.myParameters.repeats) :=
  ⟨⟨rfl, c5_repeat_override.1 clearBusy 1 100 0 5 initialState laserDemoC5 rfl⟩,
   ⟨rfl, c5_repeat_override.2.2.2.2.2 clearBusy 1 1 100 200 0 0 5 initialState
      laserDemoC5 laserDemoC5b rfl rfl⟩⟩

/-- C7: `IrSamsungDVD::send` stores the device word in `data1` and the
command word in `data2`, selects the Samsung-DVD protocol, and the two
sub-fields are separated by a middle stop at bit 16 of the 36-bit packet; and
every compiled-in command code carries its function byte's complement check
byte (bits 12..19 are the bitwise complement of bits 4..11) above the
constant extended nibble. -/
theorem c7_samsung_split_field :
    IrSamsungDVD.myParameters.middleStopBit = 16 ∧
    IrSamsungDVD.myParameters.packetLength = 16 + 20 ∧
    IrSamsungDVD.DVD = 0x20 ∧
    (∀ step fuel code delay device repeats s s',
      IrSamsungDVD.send step fuel code delay device repeats s = some s' →
      s'.data1 = device ∧ s'.data2 = code ∧
      s'.protocol = Protocol.p_SAMSUNG_DVD ∧
      s'.parameters.middleStopBit = 16) ∧
    (∀ code ∈ IrSamsungDVD.codes,
      (code >>> 12) &&& 255 = 255 - ((code >>> 4) &&& 255) ∧
      code &&& 15 = 7) := by
  refine ⟨rfl, rfl, rfl, ?_, by decide⟩
  intro step fuel code delay device repeats s s' h
  obtain ⟨s₀, hw, rfl⟩ := Option.map_eq_some'.mp h
  dsimp only
  by_cases hr : repeats ≠ 0
  · rw [if_pos hr]
    exact ⟨rfl, rfl, rfl, rfl⟩
  · rw [if_neg hr]
    exact ⟨rfl, rfl, rfl, rfl⟩

/-- C7 witness: sending the ON_OFF code `0xFF007` to device `0x20` from the
boot state. -/
theorem c7_witness :
    (IrSamsungDVD.send id 1 0xFF007 0 0x20 0 initialState = some samsungDemoC7 ∧
     samsungDemoC7.data1 = 0x20 ∧ samsungDemoC7.data2 = 0xFF007 ∧
     samsungDemoC7.protocol = Protocol.p_SAMSUNG_DVD ∧
     samsungDemoC7.parameters.middleStopBit = 16) ∧
    ((0xFF007 >>> 12) &&& 255 = 255 - ((0xFF007 >>> 4) &&& 255) ∧
     0xFF007 &&& 15 = 7) := by
  have H := c7_samsung_split_field.2.2.2.1 id 1 0xFF007 0 0x20 0 initialState
    samsungDemoC7 rfl
  have H2 := c7_samsung_split_field.2.2.2.2 0xFF007 (by decide)
  exact ⟨⟨rfl, H.1, H.2.1, H.2.2.1, H.2.2.2⟩, H2⟩

/-- C8: `isBusy` returns exactly the busy flag, and for every protocol class
the busy flag is true after a successful `send` returns. -/
theorem c8_busy_after_send :
    (∀ s, isBusy s = s.busyFlag) ∧
    (∀ step fuel code delay repeats s s',
      IrLaserDVD.send step fuel code delay repeats s = some s' →
      isBusy s' = true) ∧
    (∀ step fuel code delay repeats s s',
      IrTeacPVR.send step fuel code delay repeats s = some s' →
      isBusy s' = true) ∧
    (∀ step fuel code delay repeats s s',
      IrTeacDVD.send step fuel code delay repeats s = some s' →
      isBusy s' = true) ∧
    (∀ step fuel code delay device repeats s s',
      IrSamsungDVD.send step fuel code delay device repeats s = some s' →
      isBusy s' = true) ∧
    (∀ step fuel cmtCommand delay repeats s s',
      IrSonyTV.send step fuel cmtCommand delay repeats s = some s' →
      isBusy s' = true) := by
  refine ⟨fun s => rfl, ?_, ?_, ?_, ?_, ?_⟩
  · intro step fuel code delay repeats s s' h
    obtain ⟨s₀, hw, rfl⟩ := Option.map_eq_some'.mp h
    dsimp only
    by_cases hr : repeats ≠ 0
    · rw [if_pos hr]
      rfl
    · rw [if_neg hr]
      rfl
  · intro step fuel code delay repeats s s' h
    obtain ⟨s₀, hw, rfl⟩ := Option.map_eq_some'.mp h
    dsimp only
    by_cases hr : repeats ≠ 0
    · rw [if_pos hr]
      rfl
    · rw [if_neg hr]
      rfl
  · intro step fuel code delay repeats s s' h
    obtain ⟨s₀, hw, rfl⟩ := Option.map_eq_some'.mp h
    dsimp only
    by_cases hr : repeats ≠ 0
    · rw [if_pos hr]
      rfl
    · rw [if_neg hr]
      rfl
  · intro step fuel code delay device repeats s s' h
    obtain ⟨s₀, hw, rfl⟩ := Option.map_eq_some'.mp h
    dsimp only
    by_cases hr : repeats ≠ 0
    · rw [if_pos hr]
      rfl
    · rw [if_neg hr]
      rfl
  · intro step fuel cmtCommand delay repeats s s' h
    obtain ⟨s₀, hw, rfl⟩ := Option.map_eq_some'.mp h
    dsimp only
    by_cases hr : repeats ≠ 0
    · rw [if_pos hr]
      rfl
    · rw [if_neg hr]
      rfl

/-- C8 witness: after a concrete Teac-PVR `send` from the boot state the
engine reports busy. -/
theorem c8_witness :
    IrTeacPVR.send id 1 0xBF00AE51 0 0 initialState = some teacDemoC8 ∧
    isBusy teacDemoC8 = true :=
  ⟨rfl, c8_busy_after_send.2.2.1 id 1 0xBF00AE51 0 0 initialState teacDemoC8 rfl⟩

/-- C9: every public `send` entry point first runs `waitUntilComplete`
(which only iterates the interrupt environment and terminates in a state
with the busy flag clear) before writing any shared transmission state:
a successful `send` from `s` factors as reaching, by interrupt steps alone,
a non-busy state `s₀`, and then performing the entire `send` from `s₀` with
no further waiting.  This covers the five protocol classes defined under
`src/` and, through `specDvdSend`, the spec-modelled send pattern of the
remaining classes referenced from `remoteController.cpp`. -/
theorem c9_send_waits_before_writing :
    (∀ step fuel code delay repeats s s',
      IrLaserDVD.send step fuel code delay repeats s = some s' →
      ∃ n s₀, n ≤ fuel ∧ s₀ = step^[n] s ∧ s₀.busyFlag = false ∧
        waitUntilComplete step fuel s = some s₀ ∧
        IrLaserDVD.send step 0 code delay repeats s₀ = some s') ∧
    (∀ step fuel code delay repeats s s',
      IrTeacPVR.send step fuel code delay repeats s = some s' →
      ∃ n s₀, n ≤ fuel ∧ s₀ = step^[n] s ∧ s₀.busyFlag = false ∧
        waitUntilComplete step fuel s = some s₀ ∧
        IrTeacPVR.send step 0 code delay repeats s₀ = some s') ∧
    (∀ step fuel code delay repeats s s',
      IrTeacDVD.send step fuel code delay repeats s = some s' →
      ∃ n s₀, n ≤ fuel ∧ s₀ = step^[n] s ∧ s₀.busyFlag = false ∧
        waitUntilComplete step fuel s = some s₀ ∧
        IrTeacDVD.send step 0 code delay repeats s₀ = some s') ∧
    (∀ step fuel code delay device repeats s s',
      IrSamsungDVD.send step fuel code delay device repeats s = some s' →
      ∃ n s₀, n ≤ fuel ∧ s₀ = step^[n] s ∧ s₀.busyFlag = false ∧
        waitUntilComplete step fuel s = some s₀ ∧
        IrSamsungDVD.send step 0 code delay device repeats s₀ = some s') ∧
    (∀ step fuel cmtCommand delay repeats s s',
      IrSonyTV.send step fuel cmtCommand delay repeats s = some s' →
      ∃ n s₀, n ≤ fuel ∧ s₀ = step^[n] s ∧ s₀.busyFlag = false ∧
        waitUntilComplete step fuel s = some s₀ ∧
        IrSonyTV.send step 0 cmtCommand delay repeats s₀ = some s') ∧
    (∀ desc prot step fuel code delay repeats s s',
      specDvdSend desc prot step fuel code delay repeats s = some s' →
      ∃ n s₀, n ≤ fuel ∧ s₀ = step^[n] s ∧ s₀.busyFlag = false ∧
        waitUntilComplete step fuel s = some s₀ ∧
        specDvdSend desc prot step 0 code delay repeats s₀ = some s') := by
  refine ⟨?_, ?_, ?_, ?_, ?_, ?_⟩
  · intro step fuel code delay repeats s s' h
    obtain ⟨s₀, hw, hbody⟩ := Option.map_eq_some'.mp h
    obtain ⟨hbusy, n, hn, hiter⟩ := waitUntilComplete_some hw
    refine ⟨n, s₀, hn, hiter, hbusy, hw, ?_⟩
    rw [IrLaserDVD.send, waitUntilComplete_of_not_busy hbusy, Option.map_some']
    exact congrArg some hbody
  · intro step fuel code delay repeats s s' h
    obtain ⟨s₀, hw, hbody⟩ := Option.map_eq_some'.mp h
    obtain ⟨hbusy, n, hn, hiter⟩ := waitUntilComplete_some hw
    refine ⟨n, s₀, hn, hiter, hbusy, hw, ?_⟩
    rw [IrTeacPVR.send, waitUntilComplete_of_not_busy hbusy, Option.map_some']
    exact congrArg some hbody
  · intro step fuel code delay repeats s s' h
    obtain ⟨s₀, hw, hbody⟩ := Option.map_eq_some'.mp h
    obtain ⟨hbusy, n, hn, hiter⟩ := waitUntilComplete_some hw
    refine ⟨n, s₀, hn, hiter, hbusy, hw, ?_⟩
    rw [IrTeacDVD.send, waitUntilComplete_of_not_busy hbusy, Option.map_some']
    exact congrArg some hbody
  · intro step fuel code delay device repeats s s' h
    obtain ⟨s₀, hw, hbody⟩ := Option.map_eq_some'.mp h
    obtain ⟨hbusy, n, hn, hiter⟩ := waitUntilComplete_some hw
    refine ⟨n, s₀, hn, hiter, hbusy, hw, ?_⟩
    rw [IrSamsungDVD.send, waitUntilComplete_of_not_busy hbusy, Option.map_some']
    exact congrArg some hbody
  · intro step fuel cmtCommand delay repeats s s' h
    obtain ⟨s₀, hw, hbody⟩ := Option.map_eq_some'.mp h
    obtain ⟨hbusy, n, hn, hiter⟩ := waitUntilComplete_some hw
    refine ⟨n, s₀, hn, hiter, hbusy, hw, ?_⟩
    rw [IrSonyTV.send, waitUntilComplete_of_not_busy hbusy, Option.map_some']
    exact congrArg some hbody
  · intro desc prot step fuel code delay repeats s s' h
    obtain ⟨s₀, hw, hbody⟩ := Option.map_eq_some'.mp h
    obtain ⟨hbusy, n, hn, hiter⟩ := waitUntilComplete_some hw
    refine ⟨n, s₀, hn, hiter, hbusy, hw, ?_⟩
    rw [specDvdSend, waitUntilComplete_of_not_busy hbusy, Option.map_some']
    exact congrArg some hbody

/-- C9 witness: a concrete Laser-DVD `send` from the (non-busy) boot state
factors through the wait. -/
theorem c9_witness :
    IrLaserDVD.send id 1 12345 0 0 initialState = some laserDemoC9 ∧
    (∃ n s₀, n ≤ 1 ∧ s₀ = id^[n] initialState ∧ s₀.busyFlag = false ∧
      waitUntilComplete id 1 initialState = some s₀ ∧
      IrLaserDVD.send id 0 12345 0 0 s₀ = some laserDemoC9) :=
  ⟨rfl,
   c9_send_waits_before_writing.1 id 1 12345 0 0 initialState laserDemoC9 rfl⟩

end USBDM
